import Mathlib

/-!
Verification development for the colite cooperative-concurrency library.

The definitions below are shallow embeddings of the C++ sources:
  - src/include/colite/executor/executor.hpp (executor variants and equality)
  - src/include/colite/task/yield.hpp and src/include/colite/coroutine/yield.hpp
  - src/include/colite/sync/channel.hpp and src/include/colite/coroutine/channel.hpp
  - src/include/colite/sync/mutex.hpp

Shared-pointer / weak-pointer machinery is modelled with natural-number
identities together with an explicit list of identities that are still
alive (a weak-pointer lock succeeds exactly when the identity is in the
list).  Heap allocation (make_unique / make_shared) is modelled by an
allocator that hands out strictly increasing fresh addresses.
-/

namespace Colite

/-! ### Executor model (src/include/colite/executor/executor.hpp) -/

namespace Executor

/-- immediate_executor: a stateless executor that runs the callable in the
caller.  It has no data members. -/
structure immediate_executor where

/-- Source operator== for immediate_executor: always returns true. -/
def immediate_executor_eq (_a _b : immediate_executor) : Bool := true

/-- detail::adapted_exec_t: holds the user invocable fn_.  The invocable is
abstracted by an identity. -/
structure adapted_exec_t where
  fn : Nat

/-- Source operator== for adapted_exec_t: always returns false. -/
def adapted_exec_eq (_a _b : adapted_exec_t) : Bool := false

/-- any_executor: holds unique_ptr<executor_base> impl_.  The owned object
is abstracted by its heap address. -/
structure any_executor where
  implAddr : Nat

/-- Source operator== for any_executor: lhs.impl_.get() == rhs.impl_.get(),
i.e. pointer identity of the held implementation objects. -/
def any_executor_eq (a b : any_executor) : Bool := a.implAddr == b.implAddr

/-- Heap model for make_unique: addresses are handed out in increasing
order, so the next address is fresh. -/
structure HeapModel where
  next : Nat

/-- Allocate a fresh address. -/
def HeapModel.alloc (h : HeapModel) : Nat × HeapModel := (h.next, ⟨h.next + 1⟩)

/-- A live object of the heap has an address that was already handed out. -/
def any_executor.live_in (e : any_executor) (h : HeapModel) : Prop :=
  e.implAddr < h.next

/-- any_executor copy constructor: impl_(rhs.impl_->clone()), where clone()
performs make_unique, i.e. a fresh allocation holding a copy of the wrapped
executor.  Returns the copy and the updated heap. -/
def any_executor_copy (h : HeapModel) (_e : any_executor) : any_executor × HeapModel :=
  let a := h.alloc
  (⟨a.1⟩, a.2)

end Executor

/-! ### Yield model (src/include/colite/task/yield.hpp and
src/include/colite/coroutine/yield.hpp) -/

namespace Yield

/-- colite::task::yield awaitable: exec_ plus the shared liveness token
alive_check_ (a shared_ptr<char>), abstracted by its identity. -/
structure task_yield_awaitable where
  execId : Nat
  aliveCheck : Nat

/-- The callable submitted by task::yield await_suspend: captures the
coroutine handle to_suspend and a weak reference to alive_check_. -/
structure task_yield_callable where
  toSuspend : Nat
  weakAliveCheck : Nat

/-- task::yield awaitable::await_suspend body: builds the weak reference
from alive_check_ and submits the callable onto exec_. -/
def task_yield_await_suspend (a : task_yield_awaitable) (toSuspend : Nat) :
    task_yield_callable :=
  { toSuspend := toSuspend, weakAliveCheck := a.aliveCheck }

/-- Executing the task::yield callable in a world where the tokens in
live are still alive: resume() is invoked iff the weak lock succeeds,
i.e. iff the captured token is still alive. -/
def task_yield_run (live : List Nat) (c : task_yield_callable) : Bool :=
  live.contains c.weakAliveCheck

/-- colite::coroutine::yield callable: captures only the coroutine handle
to_suspend.  There is no liveness token in this variant. -/
structure coro_yield_callable where
  toSuspend : Nat

/-- coroutine::yield awaitable::await_suspend body: submits a callable
capturing only to_suspend onto exec_. -/
def coro_yield_await_suspend (toSuspend : Nat) : coro_yield_callable :=
  { toSuspend := toSuspend }

/-- Executing the coroutine::yield callable: the source body is
to_suspend.resume() with no check, so resume() is invoked regardless of
which tokens or tasks are still alive. -/
def coro_yield_run (_live : List Nat) (_c : coro_yield_callable) : Bool := true

end Yield

/-! ### MPMC channel model (src/include/colite/sync/channel.hpp; the
receive / send / wakeup logic of src/include/colite/coroutine/channel.hpp
is textually identical and is covered by the same definitions) -/

namespace Mpmc

/-- detail::waiting_receiver_t: resumption handle waiting_coro_, the slot
value_ (std::optional<T>), and the executor exec_.  The record is a
shared_ptr, abstracted by its identity id used for weak references. -/
structure waiting_receiver_t (T : Type) where
  id : Nat
  waiting_coro : Nat
  value : Option T
  execId : Nat
  deriving DecidableEq

/-- detail::state_t: the FIFO queue data_ (deque, head = front), the
weakly held waiting receivers (in order, by identity), and the liveness
of the sender and receiver tickets (weak_ptr lock success). -/
structure state_t (T : Type) where
  data : List T
  waiting : List Nat
  senderAlive : Bool
  receiverAlive : Bool
  deriving DecidableEq

/-- state_t::pop_value: pop the front of the queue if non-empty. -/
def pop_value (s : state_t T) : Option T × state_t T :=
  match s.data with
  | [] => (none, s)
  | v :: rest => (some v, { s with data := rest })

/-- The fresh waiting_receiver_t built in Receiver::receive: executor set
from the argument, empty slot, null coroutine handle. -/
def make_waiting_receiver (T : Type) (execId freshId : Nat) : waiting_receiver_t T :=
  { id := freshId, waiting_coro := 0, value := none, execId := execId }

/-- Receiver::receive awaitable::await_suspend, run under the state lock.
Returns (suspend?, updated waiter record, updated state): if the queue is
empty and no sender is alive, write the empty slot and resume
synchronously; if the queue is empty and a sender is alive, record the
coroutine handle, append the waiter and suspend; otherwise pop the front
value into the slot and resume synchronously. -/
def receive_await_suspend (s : state_t T) (w : waiting_receiver_t T) (toSuspend : Nat) :
    Bool × waiting_receiver_t T × state_t T :=
  match s.data with
  | [] =>
    if s.senderAlive = false then
      (false, { w with value := none }, s)
    else
      (true, { w with waiting_coro := toSuspend },
       { s with waiting := s.waiting ++ [w.id] })
  | v :: rest =>
    (false, { w with value := some v }, { s with data := rest })

/-- Receiver::receive awaitable::await_resume: returns the slot. -/
def receive_await_resume (w : waiting_receiver_t T) : Option T := w.value

/-- Errors of Receiver::try_receive. -/
inductive TryReceiveError where
  | Empty
  | Closed
  deriving DecidableEq

/-- Errors of Sender::try_send and Sender::send. -/
inductive SendError where
  | Closed
  deriving DecidableEq

/-- Receiver::try_receive: under the state lock, pop_value; on a value
return it; otherwise Empty when the sender ticket still locks, Closed
when it does not. -/
def try_receive (s : state_t T) : Except TryReceiveError T × state_t T :=
  let p := pop_value s
  match p.1 with
  | some v => (Except.ok v, p.2)
  | none =>
    if p.2.senderAlive then (Except.error TryReceiveError.Empty, p.2)
    else (Except.error TryReceiveError.Closed, p.2)

/-- Sender::wakeup_waiting_receivers: iterate over the drained weak list
and, for each record whose weak lock succeeds (identity still alive),
submit one wake handler onto that receiver's executor; stale entries are
skipped.  Returns the identities for which a handler was submitted. -/
def wakeup_waiting_receivers (live : List Nat) (ws : List Nat) : List Nat :=
  ws.filter (fun w => live.contains w)

/-- Sender::try_send: if the receiver ticket does not lock, fail with
Closed and touch nothing; otherwise, under the state lock, push the value
onto the back of the queue and steal the whole waiter list, then (outside
the lock) submit the wake handlers.  Returns (result, state, submitted
waiter identities). -/
def try_send (live : List Nat) (s : state_t T) (v : T) :
    Except SendError Unit × state_t T × List Nat :=
  if s.receiverAlive = false then (Except.error SendError.Closed, s, [])
  else
    (Except.ok (),
     { s with data := s.data ++ [v], waiting := [] },
     wakeup_waiting_receivers live s.waiting)

/-- The awaitable returned by Sender::send: exec_, the closed_ flag and
the shared alive_check_ token (default-initialised fresh). -/
structure send_awaitable where
  execId : Nat
  closed : Bool
  aliveCheck : Nat
  deriving DecidableEq

/-- The callable submitted by the send awaitable's await_suspend: the
coroutine handle and a weak reference to alive_check_. -/
structure send_resume_callable where
  toSuspend : Nat
  weakAlive : Nat
  deriving DecidableEq

/-- send awaitable::await_ready: constexpr false, the awaitable always
suspends. -/
def send_await_ready : Bool := false

/-- send awaitable::await_suspend: submits one resume callable onto exec_.
Returns (target executor, submitted callable). -/
def send_await_suspend (a : send_awaitable) (toSuspend : Nat) :
    Nat × send_resume_callable :=
  (a.execId, { toSuspend := toSuspend, weakAlive := a.aliveCheck })

/-- send awaitable::await_resume: returns !closed_. -/
def send_await_resume (a : send_awaitable) : Bool := !a.closed

/-- Sender::send: if the receiver ticket does not lock, return the
awaitable with closed_ = true and touch nothing; otherwise push the value,
steal and wake the waiter list exactly as try_send, and return the
awaitable with closed_ = false.  freshAlive is the identity of the
awaitable's newly allocated alive_check_ token.  Returns (awaitable,
state, submitted waiter identities). -/
def send (live : List Nat) (s : state_t T) (execId : Nat) (v : T) (freshAlive : Nat) :
    send_awaitable × state_t T × List Nat :=
  if s.receiverAlive = false then
    ({ execId := execId, closed := true, aliveCheck := freshAlive }, s, [])
  else
    ({ execId := execId, closed := false, aliveCheck := freshAlive },
     { s with data := s.data ++ [v], waiting := [] },
     wakeup_waiting_receivers live s.waiting)

/-- Outcome of one wake handler submitted by wakeup_waiting_receivers. -/
inductive wake_result (T : Type) where
  | staleSkip
  | resumed (slot : Option T)
  | requeued
  deriving DecidableEq

/-- The wake handler body from Sender::wakeup_waiting_receivers: if the
weak lock on the receiver record fails, do nothing; otherwise, under the
state lock, pop_value; if a value was popped or no sender is alive,
resume the receiver with the slot; otherwise re-append the receiver to
the waiting list. -/
def wake_handler (live : List Nat) (w : waiting_receiver_t T) (s : state_t T) :
    wake_result T × state_t T :=
  if live.contains w.id then
    let p := pop_value s
    if p.1.isSome || !p.2.senderAlive then
      (wake_result.resumed p.1, p.2)
    else
      (wake_result.requeued, { p.2 with waiting := p.2.waiting ++ [w.id] })
  else
    (wake_result.staleSkip, s)

/-- Sender::~Sender when the last sender ticket dies: under the state
lock the ticket is reset and the waiter list drained; outside the lock
the usual wake handlers are submitted. -/
def sender_drop_last (live : List Nat) (s : state_t T) : state_t T × List Nat :=
  ({ s with senderAlive := false, waiting := [] },
   wakeup_waiting_receivers live s.waiting)

/-- Destruction of the last receiver: the receiver ticket dies. -/
def receiver_drop_last (s : state_t T) : state_t T :=
  { s with receiverAlive := false }

/-- channel(): fresh state with empty queue, no waiters, and live sender
and receiver tickets of strong count 1. -/
def channel_init (T : Type) : state_t T :=
  { data := [], waiting := [], senderAlive := true, receiverAlive := true }

/-- One critical section of the channel (one acquisition and release of
the state lock), ranging over every operation of the source. -/
inductive chan_step {T : Type} : state_t T → state_t T → Prop where
  | receiveStep : ∀ (s : state_t T) (w : waiting_receiver_t T) (t : Nat),
      chan_step s (receive_await_suspend s w t).2.2
  | trySendStep : ∀ (live : List Nat) (s : state_t T) (v : T),
      chan_step s (try_send live s v).2.1
  | sendStep : ∀ (live : List Nat) (s : state_t T) (e : Nat) (v : T) (fr : Nat),
      chan_step s (send live s e v fr).2.1
  | tryReceiveStep : ∀ (s : state_t T),
      chan_step s (try_receive s).2
  | wakeStep : ∀ (live : List Nat) (w : waiting_receiver_t T) (s : state_t T),
      chan_step s (wake_handler live w s).2
  | dropLastSenderStep : ∀ (live : List Nat) (s : state_t T),
      chan_step s (sender_drop_last live s).1
  | dropLastReceiverStep : ∀ (s : state_t T),
      chan_step s (receiver_drop_last s)

/-- States reachable from the fresh channel through critical sections. -/
inductive chan_reachable {T : Type} : state_t T → Prop where
  | start : chan_reachable (channel_init T)
  | next : ∀ {s s2 : state_t T}, chan_reachable s → chan_step s s2 → chan_reachable s2

/-- The C4 invariant: while a sender is alive, a non-empty waiter list
implies an empty queue. -/
def waiters_imply_empty (s : state_t T) : Prop :=
  s.senderAlive = true → s.waiting ≠ [] → s.data = []

end Mpmc

/-! ### Async mutex model (src/include/colite/sync/mutex.hpp)

The mutex world carries the source fields locked_ and waiters_ together
with a ghost counter of outstanding guards: the counter is incremented
exactly where the source constructs a populated mutex_guard (try_lock
success, the synchronous lock path, and the wake handler's successful
re-acquisition, whose resumed coroutine receives the guard from
await_resume) and decremented exactly where unlock_impl runs on a
non-null guard. -/

namespace Sync

/-- mutex::waiter_t: back pointer to the mutex (implicit, we model one
mutex), the resumption handle coroutine_ and the executor exec_.  The
record is a shared_ptr, abstracted by its identity id. -/
structure waiter_t where
  id : Nat
  coroutine : Nat
  execId : Nat
  deriving DecidableEq

/-- The waiter_t built in mutex::lock: make_shared<waiter_t>(this, exec),
with a null coroutine handle. -/
def make_waiter (execId freshId : Nat) : waiter_t :=
  { id := freshId, coroutine := 0, execId := execId }

/-- mutex_guard: mutex_ is either null (released / moved-from) or the
identity of the owning mutex. -/
structure mutex_guard where
  mutexRef : Option Nat
  deriving DecidableEq

/-- The mutex state: locked_ flag, weakly held waiters_ (in order, by
identity), and the ghost count of outstanding guards. -/
structure mutex_world where
  locked : Bool
  guards : Nat
  waiters : List Nat
  deriving DecidableEq

/-- mutex(value): locked_ = false, no waiters, no guard outstanding. -/
def mutex_init : mutex_world :=
  { locked := false, guards := 0, waiters := [] }

/-- mutex::try_lock: under the internal lock, if not locked, set locked
and return a populated guard; otherwise return nullopt. -/
def try_lock (mid : Nat) (m : mutex_world) : Option mutex_guard × mutex_world :=
  if m.locked = false then
    (some { mutexRef := some mid }, { m with locked := true, guards := m.guards + 1 })
  else
    (none, m)

/-- mutex::lock awaitable::await_suspend, run under the internal lock:
the waiter's coroutine_ is set to to_suspend; if not locked, set locked
and do not suspend (await_resume hands the resumed task a populated
guard, counted here); otherwise append the waiter to waiters_ and
suspend.  Returns (suspend?, updated waiter, updated world). -/
def lock_await_suspend (m : mutex_world) (w : waiter_t) (toSuspend : Nat) :
    Bool × waiter_t × mutex_world :=
  let w2 := { w with coroutine := toSuspend }
  if m.locked = false then
    (false, w2, { m with locked := true, guards := m.guards + 1 })
  else
    (true, w2, { m with waiters := m.waiters ++ [w2.id] })

/-- mutex::lock awaitable::await_resume: returns mutex_guard(*mutex_). -/
def lock_await_resume (mid : Nat) : mutex_guard := { mutexRef := some mid }

/-- The handler posted by mutex::wakeup_waiter: if the weak lock on the
waiter fails, do nothing; otherwise, under the internal lock, if not
locked, set locked and resume the waiter (which then receives a guard);
otherwise re-append the waiter to waiters_. -/
def mutex_wake_handler (live : List Nat) (wid : Nat) (m : mutex_world) : mutex_world :=
  if live.contains wid then
    if m.locked = false then
      { m with locked := true, guards := m.guards + 1 }
    else
      { m with waiters := m.waiters ++ [wid] }
  else
    m

/-- mutex_guard::unlock_impl (also run by the destructor and by unlock()):
if mutex_ is non-null, set locked_ = false under the internal lock, null
out mutex_, and drain the waiter list (wakeup_waiters exchanges it; the
wake handlers are then submitted outside the lock).  If mutex_ is already
null, do nothing.  Returns (guard after, world after, drained waiters). -/
def unlock_impl (g : mutex_guard) (m : mutex_world) :
    mutex_guard × mutex_world × List Nat :=
  match g.mutexRef with
  | some _ =>
    ({ mutexRef := none },
     { m with locked := false, guards := m.guards - 1, waiters := [] },
     m.waiters)
  | none => (g, m, [])

/-- mutex_guard move assignment (non-self case): unlock_impl on the left
guard, then steal the right guard's mutex_.  Returns (lhs after, rhs
after, world after, drained waiters). -/
def guard_move_assign (lhs rhs : mutex_guard) (m : mutex_world) :
    mutex_guard × mutex_guard × mutex_world × List Nat :=
  let u := unlock_impl lhs m
  ({ mutexRef := rhs.mutexRef }, { mutexRef := none }, u.2.1, u.2.2)

/-- One critical section of the mutex.  The unlock and move-assign steps
carry the fact that a non-null guard is one of the outstanding guards. -/
inductive mutex_step : mutex_world → mutex_world → Prop where
  | tryLockStep : ∀ (mid : Nat) (m : mutex_world),
      mutex_step m (try_lock mid m).2
  | lockStep : ∀ (m : mutex_world) (w : waiter_t) (t : Nat),
      mutex_step m (lock_await_suspend m w t).2.2
  | wakeStep : ∀ (live : List Nat) (wid : Nat) (m : mutex_world),
      mutex_step m (mutex_wake_handler live wid m)
  | unlockStep : ∀ (g : mutex_guard) (m : mutex_world),
      (g.mutexRef.isSome = true → 1 ≤ m.guards) →
      mutex_step m (unlock_impl g m).2.1
  | moveAssignStep : ∀ (lhs rhs : mutex_guard) (m : mutex_world),
      (lhs.mutexRef.isSome = true → 1 ≤ m.guards) →
      mutex_step m (guard_move_assign lhs rhs m).2.2.1

/-- Mutex worlds reachable from the freshly constructed mutex. -/
inductive mutex_reachable : mutex_world → Prop where
  | start : mutex_reachable mutex_init
  | next : ∀ {m m2 : mutex_world},
      mutex_reachable m → mutex_step m m2 → mutex_reachable m2

/-- The C8 invariant: a guard is outstanding iff locked_ is true. -/
def guard_matches_locked (m : mutex_world) : Prop :=
  m.guards = if m.locked then 1 else 0

end Sync

end Colite

/-! ## Theorems for executor and yield claims -/

open Colite

/-- C9: executor-handle equality per variant: immediate handles always
compare equal; adapted handles always compare unequal, including an
adapted handle compared with itself; type-erased any_executor handles
compare equal iff they hold the same implementation object. -/
theorem executor_equality_per_variant :
    (∀ a b : Executor.immediate_executor, Executor.immediate_executor_eq a b = true) ∧
    (∀ a b : Executor.adapted_exec_t, Executor.adapted_exec_eq a b = false) ∧
    (∀ a : Executor.adapted_exec_t, Executor.adapted_exec_eq a a = false) ∧
    (∀ a b : Executor.any_executor,
      Executor.any_executor_eq a b = true ↔ a.implAddr = b.implAddr) := by
  refine ⟨fun a b => rfl, fun a b => rfl, fun a => rfl, fun a b => ?_⟩
  simp [Executor.any_executor_eq]

/-- C10: copying an any_executor clones the implementation object into a
fresh allocation, so the copy compares unequal to the original: erased
handle equality is not preserved by the copy round trip. -/
theorem any_executor_copy_not_equal (h : Executor.HeapModel) (e : Executor.any_executor)
    (hl : e.live_in h) :
    Executor.any_executor_eq (Executor.any_executor_copy h e).1 e = false := by
  simp only [Executor.any_executor_copy, Executor.any_executor_eq, Executor.HeapModel.alloc]
  simp only [Executor.any_executor.live_in] at hl
  simp [Nat.ne_of_gt hl]

/-- Witness for C10 at a concrete heap and handle. -/
theorem any_executor_copy_not_equal_witness :
    Executor.any_executor.live_in ⟨3⟩ ⟨7⟩ ∧
    Executor.any_executor_eq (Executor.any_executor_copy ⟨7⟩ ⟨3⟩).1 ⟨3⟩ = false :=
  ⟨by simp [Executor.any_executor.live_in],
   any_executor_copy_not_equal ⟨7⟩ ⟨3⟩ (by simp [Executor.any_executor.live_in])⟩

/-- C3 counterexample: the claim asserts that for both yield variants the
submitted wake callable checks a weak liveness token and skips resumption
once the awaitable is destroyed.  The colite::coroutine::yield variant has
no such token: its callable resumes unconditionally.  Concretely, in a
world where nothing is alive (live = []), the callable produced for
coroutine handle 0 still invokes resume(). -/
theorem coroutine_yield_resumes_after_drop :
    Yield.coro_yield_run [] (Yield.coro_yield_await_suspend 0) = true := rfl

/-- C3 amended: the liveness-token property holds for the
colite::task::yield variant: the submitted callable captures a weak
reference to the awaitable's shared token, and when the token is no longer
alive the weak lock fails and resumption is skipped; the
colite::coroutine::yield variant's callable captures only the coroutine
handle and always resumes. -/
theorem task_yield_liveness (live : List Nat) (a : Yield.task_yield_awaitable)
    (t : Nat) (h : live.contains a.aliveCheck = false) :
    (Yield.task_yield_await_suspend a t).weakAliveCheck = a.aliveCheck ∧
    Yield.task_yield_run live (Yield.task_yield_await_suspend a t) = false ∧
    (∀ (live2 : List Nat) (c : Yield.coro_yield_callable),
      Yield.coro_yield_run live2 c = true) := by
  exact ⟨rfl, h, fun live2 c => rfl⟩

/-- Witness for the amended C3 at a concrete dead token. -/
theorem task_yield_liveness_witness :
    ([ ] : List Nat).contains 5 = false ∧
    Yield.task_yield_run [] (Yield.task_yield_await_suspend ⟨2, 5⟩ 9) = false :=
  ⟨by decide, (task_yield_liveness [] ⟨2, 5⟩ 9 (by decide)).2.1⟩

/-! ## Theorems for channel claims -/

open Colite.Mpmc

/-- C1: at the suspension point of receiver.receive(ctx), under the state
lock: a non-empty queue pops the front (oldest) value into the awaiter's
slot and resumes synchronously with it; an empty queue with no live
sender sets the slot empty and resumes synchronously; otherwise the
receiver waiter referencing ctx is appended to the waiter list and the
task suspends. -/
theorem receive_await_suspend_spec {T : Type} (s : state_t T) (w : waiting_receiver_t T)
    (t : Nat) :
    (∀ v rest, s.data = v :: rest →
      receive_await_suspend s w t =
        (false, { w with value := some v }, { s with data := rest })) ∧
    (s.data = [] → s.senderAlive = false →
      receive_await_suspend s w t = (false, { w with value := none }, s)) ∧
    (s.data = [] → s.senderAlive = true →
      receive_await_suspend s w t =
        (true, { w with waiting_coro := t },
         { s with waiting := s.waiting ++ [w.id] })) ∧
    (∀ u : Option T, receive_await_resume { w with value := u } = u) ∧
    (∀ e i, (make_waiting_receiver T e i).execId = e) := by
  refine ⟨?_, ?_, ?_, fun u => rfl, fun e i => rfl⟩
  · intro v rest hd
    simp [receive_await_suspend, hd]
  · intro hd hs
    simp [receive_await_suspend, hd, hs]
  · intro hd hs
    simp [receive_await_suspend, hd, hs]

/-- Witness for C1: popping the front of a two-element queue. -/
theorem receive_await_suspend_spec_witness :
    ([7, 8] : List Nat) = 7 :: [8] ∧
    receive_await_suspend (⟨[7, 8], [], true, true⟩ : state_t Nat) ⟨1, 0, none, 4⟩ 2 =
      (false, ⟨1, 0, some 7, 4⟩, ⟨[8], [], true, true⟩) :=
  ⟨rfl, (receive_await_suspend_spec ⟨[7, 8], [], true, true⟩ ⟨1, 0, none, 4⟩ 2).1 7 [8] rfl⟩

/-- C2: sender.send(ctx, v): with no live receiver, nothing is enqueued
and the awaitable resumes with the closed outcome (await_resume false);
otherwise v is pushed on the back, the waiter list is drained with one
wake submitted per non-stale waiter, and the awaitable resumes with the
ok outcome (true).  In both cases await_ready is false (the awaitable
always suspends) and await_suspend schedules the resumption onto ctx. -/
theorem send_spec {T : Type} (live : List Nat) (s : state_t T) (e : Nat) (v : T)
    (fr t : Nat) :
    (s.receiverAlive = false →
      (send live s e v fr).2.1 = s ∧
      (send live s e v fr).2.2 = [] ∧
      send_await_resume (send live s e v fr).1 = false) ∧
    (s.receiverAlive = true →
      (send live s e v fr).2.1 = { s with data := s.data ++ [v], waiting := [] } ∧
      (send live s e v fr).2.2 = s.waiting.filter (fun w => live.contains w) ∧
      send_await_resume (send live s e v fr).1 = true) ∧
    send_await_ready = false ∧
    (send_await_suspend (send live s e v fr).1 t).1 = e := by
  refine ⟨?_, ?_, rfl, ?_⟩
  · intro hr
    simp [send, send_await_resume, hr]
  · intro hr
    simp [send, send_await_resume, wakeup_waiting_receivers, hr]
  · cases hr : s.receiverAlive <;> simp [send, send_await_suspend, hr]

/-- Witness for C2: a successful push on an open channel and a closed
resume on a channel with no live receiver. -/
theorem send_spec_witness :
    (send [3] (⟨[], [3, 4], true, true⟩ : state_t Nat) 9 7 5).2.1 =
      (⟨[7], [], true, true⟩ : state_t Nat) ∧
    send_await_resume (send [3] (⟨[], [], true, false⟩ : state_t Nat) 9 7 5).1 = false :=
  ⟨((send_spec [3] (⟨[], [3, 4], true, true⟩ : state_t Nat) 9 7 5 0).2.1 rfl).1,
   ((send_spec [3] (⟨[], [], true, false⟩ : state_t Nat) 9 7 5 0).1 rfl).2.2⟩

/-- C5: receiver.try_receive() pops and returns the oldest buffered value
whenever the queue is non-empty (regardless of sender liveness); on an
empty queue it returns Empty when a sender is live, and it returns Closed
iff no sender is live and the queue is empty. -/
theorem try_receive_spec {T : Type} (s : state_t T) :
    (∀ v rest, s.data = v :: rest →
      try_receive s = (Except.ok v, { s with data := rest })) ∧
    (s.data = [] → s.senderAlive = true →
      try_receive s = (Except.error TryReceiveError.Empty, s)) ∧
    ((try_receive s).1 = Except.error TryReceiveError.Closed ↔
      s.senderAlive = false ∧ s.data = []) := by
  refine ⟨?_, ?_, ?_⟩
  · intro v rest hd
    simp [try_receive, pop_value, hd]
  · intro hd hs
    simp [try_receive, pop_value, hd, hs]
  · obtain ⟨data, waiting, sa, ra⟩ := s
    cases data <;> cases sa <;> simp [try_receive, pop_value]

/-- Witness for C5: a value is popped even though every sender is dead. -/
theorem try_receive_spec_witness :
    ([7, 8] : List Nat) = 7 :: [8] ∧
    try_receive (⟨[7, 8], [], false, true⟩ : state_t Nat) =
      (Except.ok 7, ⟨[8], [], false, true⟩) :=
  ⟨rfl, (try_receive_spec ⟨[7, 8], [], false, true⟩).1 7 [8] rfl⟩

/-- C6: sender.try_send(v) returns Closed and enqueues nothing iff no
receiver is live; otherwise it pushes v on the back, drains the whole
receiver-waiter list under the lock, submits one wake per non-stale
waiter, and returns Ok. -/
theorem try_send_spec {T : Type} (live : List Nat) (s : state_t T) (v : T) :
    ((try_send live s v).1 = Except.error SendError.Closed ↔ s.receiverAlive = false) ∧
    (s.receiverAlive = false →
      try_send live s v = (Except.error SendError.Closed, s, [])) ∧
    (s.receiverAlive = true →
      try_send live s v =
        (Except.ok (), { s with data := s.data ++ [v], waiting := [] },
         s.waiting.filter (fun w => live.contains w))) := by
  refine ⟨?_, ?_, ?_⟩
  · cases hr : s.receiverAlive <;> simp [try_send, hr]
  · intro hr
    simp [try_send, hr]
  · intro hr
    simp [try_send, wakeup_waiting_receivers, hr]

/-- Witness for C6: push and drain with one live waiter (3) and one stale
waiter (4). -/
theorem try_send_spec_witness :
    (⟨[], [3, 4], true, true⟩ : state_t Nat).receiverAlive = true ∧
    try_send [3] (⟨[], [3, 4], true, true⟩ : state_t Nat) 7 =
      (Except.ok (), ⟨[7], [], true, true⟩, [3]) :=
  ⟨rfl, (try_send_spec [3] (⟨[], [3, 4], true, true⟩ : state_t Nat) 7).2.2 rfl⟩

/-- Helper for C4: every critical section of the channel preserves the
invariant that, while a sender is alive, a non-empty waiter list implies
an empty queue. -/
theorem chan_step_preserves_waiters_imply_empty {T : Type} {s s2 : state_t T}
    (h1 : waiters_imply_empty s) (h2 : chan_step s s2) :
    waiters_imply_empty s2 := by
  cases h2 with
  | receiveStep s w t =>
    obtain ⟨data, waiting, sa, ra⟩ := s
    cases data with
    | nil =>
      cases sa <;> simp [waiters_imply_empty, receive_await_suspend]
    | cons v rest =>
      cases sa with
      | false => simp [waiters_imply_empty, receive_await_suspend]
      | true =>
        simp [waiters_imply_empty, receive_await_suspend] at h1 ⊢
        simp [h1]
  | trySendStep live s v =>
    obtain ⟨data, waiting, sa, ra⟩ := s
    cases ra with
    | false => simpa [waiters_imply_empty, try_send] using h1
    | true => simp [waiters_imply_empty, try_send]
  | sendStep live s e v fr =>
    obtain ⟨data, waiting, sa, ra⟩ := s
    cases ra with
    | false => simpa [waiters_imply_empty, send] using h1
    | true => simp [waiters_imply_empty, send]
  | tryReceiveStep s =>
    obtain ⟨data, waiting, sa, ra⟩ := s
    cases data with
    | nil =>
      cases sa <;> simp [waiters_imply_empty, try_receive, pop_value]
    | cons v rest =>
      cases sa with
      | false => simp [waiters_imply_empty, try_receive, pop_value]
      | true =>
        simp [waiters_imply_empty, try_receive, pop_value] at h1 ⊢
        simp [h1]
  | wakeStep live w s =>
    obtain ⟨data, waiting, sa, ra⟩ := s
    by_cases hl : w.id ∈ live
    · cases data with
      | nil =>
        cases sa <;> simp [waiters_imply_empty, wake_handler, pop_value, hl]
      | cons v rest =>
        cases sa with
        | false => simp [waiters_imply_empty, wake_handler, pop_value, hl]
        | true =>
          simp [waiters_imply_empty, wake_handler, pop_value, hl] at h1 ⊢
          simp [h1]
    · simpa [waiters_imply_empty, wake_handler, hl] using h1
  | dropLastSenderStep live s =>
    simp [waiters_imply_empty, sender_drop_last]
  | dropLastReceiverStep s =>
    simpa [waiters_imply_empty, receiver_drop_last] using h1

/-- C4: in every reachable channel state, while at least one sender is
live, a non-empty receiver-waiter list at a lock release implies an empty
buffered queue: receive parks only on an empty queue, send and try_send
push and drain the whole list within one critical section, and the wake
handler re-enqueues only when its pop found the queue empty. -/
theorem channel_waiter_list_invariant {T : Type} (s : state_t T)
    (h : chan_reachable s) : waiters_imply_empty s := by
  induction h with
  | start => simp [waiters_imply_empty, channel_init]
  | next hr hs ih => exact chan_step_preserves_waiters_imply_empty ih hs

/-- Witness for C4: the state reached by parking one receiver on the
fresh channel is reachable and satisfies the invariant. -/
theorem channel_waiter_list_invariant_witness :
    chan_reachable ((receive_await_suspend (channel_init Nat)
      (make_waiting_receiver Nat 0 1) 2).2.2) ∧
    waiters_imply_empty ((receive_await_suspend (channel_init Nat)
      (make_waiting_receiver Nat 0 1) 2).2.2) :=
  ⟨chan_reachable.next chan_reachable.start
     (chan_step.receiveStep (channel_init Nat) (make_waiting_receiver Nat 0 1) 2),
   channel_waiter_list_invariant _
     (chan_reachable.next chan_reachable.start
       (chan_step.receiveStep (channel_init Nat) (make_waiting_receiver Nat 0 1) 2))⟩

/-! ## Theorems for mutex claims -/

open Colite.Sync

/-- C7: at the suspension point of mutex.lock(ctx), under the internal
lock: if locked_ is false it is set to true and the task is not suspended,
its awaiter receiving a populated guard synchronously through
await_resume; otherwise a waiter record holding ctx and the resumption
token is appended to the waiter list and the task is suspended. -/
theorem mutex_lock_spec (m : mutex_world) (w : waiter_t) (t mid : Nat) :
    (m.locked = false →
      lock_await_suspend m w t =
        (false, { w with coroutine := t },
         { m with locked := true, guards := m.guards + 1 }) ∧
      lock_await_resume mid = { mutexRef := some mid }) ∧
    (m.locked = true →
      lock_await_suspend m w t =
        (true, { w with coroutine := t },
         { m with waiters := m.waiters ++ [w.id] })) ∧
    (∀ e i, (make_waiter e i).execId = e) := by
  refine ⟨?_, ?_, fun e i => rfl⟩
  · intro hm
    exact ⟨by simp [lock_await_suspend, hm], rfl⟩
  · intro hm
    simp [lock_await_suspend, hm]

/-- Witness for C7: a lock attempt on a locked mutex appends the waiter
record (with ctx 4 and resumption token 9) and suspends. -/
theorem mutex_lock_spec_witness :
    (⟨true, 1, []⟩ : mutex_world).locked = true ∧
    lock_await_suspend ⟨true, 1, []⟩ (make_waiter 4 6) 9 =
      (true, ⟨6, 9, 4⟩, ⟨true, 1, [6]⟩) :=
  ⟨rfl, (mutex_lock_spec ⟨true, 1, []⟩ (make_waiter 4 6) 9 0).2.1 rfl⟩

/-- Helper for C8: every critical section of the mutex preserves the
invariant that a guard is outstanding iff locked_ is true. -/
theorem mutex_step_preserves_guard_matches_locked {m m2 : mutex_world}
    (h1 : guard_matches_locked m) (h2 : mutex_step m m2) :
    guard_matches_locked m2 := by
  cases h2 with
  | tryLockStep mid m =>
    obtain ⟨locked, guards, waiters⟩ := m
    cases locked <;> simp_all [guard_matches_locked, try_lock]
  | lockStep m w t =>
    obtain ⟨locked, guards, waiters⟩ := m
    cases locked <;> simp_all [guard_matches_locked, lock_await_suspend]
  | wakeStep live wid m =>
    obtain ⟨locked, guards, waiters⟩ := m
    by_cases hl : wid ∈ live <;> cases locked <;>
      simp_all [guard_matches_locked, mutex_wake_handler]
  | unlockStep g m hg =>
    obtain ⟨mr⟩ := g
    obtain ⟨locked, guards, waiters⟩ := m
    cases mr with
    | none => simpa [unlock_impl] using h1
    | some mid =>
      cases locked <;> simp_all [guard_matches_locked, unlock_impl]
  | moveAssignStep lhs rhs m hg =>
    obtain ⟨mr⟩ := lhs
    obtain ⟨locked, guards, waiters⟩ := m
    cases mr with
    | none => simpa [guard_move_assign, unlock_impl] using h1
    | some mid =>
      cases locked <;>
        simp_all [guard_matches_locked, guard_move_assign, unlock_impl]

/-- C8: in every reachable mutex state, a non-released, non-moved-from
guard is outstanding iff locked_ is true: try_lock, the synchronous lock
path and the wake handler produce a guard exactly when they flip locked_
from false to true, guard release sets locked_ to false exactly once, and
unlock() on an already-released guard does nothing. -/
theorem mutex_guard_iff_locked (m : mutex_world) (h : mutex_reachable m) :
    guard_matches_locked m ∧
    (∀ g : mutex_guard, g.mutexRef = none → unlock_impl g m = (g, m, [])) := by
  constructor
  · induction h with
    | start => simp [guard_matches_locked, mutex_init]
    | next hr hs ih => exact mutex_step_preserves_guard_matches_locked ih hs
  · intro g hg
    cases g
    simp_all [unlock_impl]

/-- Witness for C8: the world reached by one successful try_lock is
reachable and satisfies the invariant. -/
theorem mutex_guard_iff_locked_witness :
    mutex_reachable (try_lock 0 mutex_init).2 ∧
    guard_matches_locked (try_lock 0 mutex_init).2 :=
  ⟨mutex_reachable.next mutex_reachable.start (mutex_step.tryLockStep 0 mutex_init),
   (mutex_guard_iff_locked _
     (mutex_reachable.next mutex_reachable.start
       (mutex_step.tryLockStep 0 mutex_init))).1⟩
